import Mathlib

/-!
Shallow embedding of `persist-ssh` (`src/persist_ssh/main.py`) and proofs
about its session-continuity logic: session-identity resolution, remote OS
classification, bootstrap installation, probe transport and the connect
command construction.

Python strings become Lean `String`; Python `dict`s become association
lists or `structure`s with `Option` fields (so `dict.get(key, default)`
becomes `Option.getD`); `subprocess` outcomes become explicit data
(`TransportResult`, `ConnectOutcome`) passed as parameters; printed output
and issued remote commands are collected in result records.

Python `str.strip` and `str.lower` are modelled by `pyStrip` and `pyLower`
over the character list (the builtin `String.trim`/`String.toLower` are
extensionally the same on ASCII but are not used so that all definitions
evaluate by kernel reduction).
-/

namespace PersistSSH

/-- Python `str.strip()`: drop whitespace from both ends. -/
def pyStrip (s : String) : String :=
  ⟨((s.data.dropWhile Char.isWhitespace).reverse.dropWhile Char.isWhitespace).reverse⟩

/-- Python `str.lower()`: lower-case every character. -/
def pyLower (s : String) : String :=
  ⟨s.data.map Char.toLower⟩

/-- Substring containment on character lists (Python `needle in haystack`). -/
def containsSub (needle : List Char) : List Char → Bool
  | [] => needle.isEmpty
  | c :: rest => needle.isPrefixOf (c :: rest) || containsSub needle rest

/-- Python `needle in haystack` for strings: substring containment. -/
def strContains (haystack needle : String) : Bool :=
  containsSub needle.data haystack.data

/-- Python truthiness of an `Optional[str]`: `None` and `""` are falsy. -/
def pyTruthy : Option String → Bool
  | none => false
  | some s => !(s == "")

/-- Outcome of one `subprocess.run(ssh ...)` call with `check=True`:
either it succeeds with captured stdout, or it raises
`CalledProcessError` carrying captured stderr. -/
inductive TransportResult where
  | ok (stdout : String)
  | err (stderr : String)

/-- `run_ssh_command` (main.py lines 89-101): on success return
`(stdout.strip(), True)`, on `CalledProcessError` return
`(stderr.strip(), False)`. The host, command and tty flag only select the
transport interaction, which is the `TransportResult` parameter here. -/
def run_ssh_command : TransportResult → String × Bool
  | .ok stdout => (pyStrip stdout, true)
  | .err stderr => (pyStrip stderr, false)

/-- The configuration dictionary. Absent keys are `none`; the code reads
every key through `dict.get` with an explicit fallback, modelled by
`Option.getD`. -/
structure Config where
  session_from_tmux_pane : Option Bool := none
  default_session_name : Option String := none
  dtach_install_command : Option (List (String × String)) := none
  mosh_install_command : Option (List (String × String)) := none

/-- A configuration with no keys set (e.g. an empty TOML file). -/
def Config.empty : Config := {}

/-- `DEFAULT_CONFIG` (main.py lines 9-26). Note the source sets
`session_from_tmux_pane` to `False` and `default_session_name` to
`"default"` (the comment on line 11 reads: Changed from main to default). -/
def DEFAULT_CONFIG : Config :=
  { session_from_tmux_pane := some false
    default_session_name := some "default"
    dtach_install_command := some
      [("ubuntu", "sudo apt update && sudo apt install -y dtach"),
       ("debian", "sudo apt update && sudo apt install -y dtach"),
       ("redhat", "sudo yum install -y dtach || sudo dnf install -y dtach"),
       ("arch", "sudo pacman -S dtach"),
       ("alpine", "sudo apk add dtach")]
    mosh_install_command := some
      [("ubuntu", "sudo apt update && sudo apt install -y mosh"),
       ("debian", "sudo apt update && sudo apt install -y mosh"),
       ("redhat", "sudo yum install -y mosh || sudo dnf install -y mosh"),
       ("arch", "sudo pacman -S mosh"),
       ("alpine", "sudo apk add mosh")] }

/-- `get_tmux_window_name` (main.py lines 68-75). The local tmux query
outcome is a parameter: `none` models `CalledProcessError` or
`FileNotFoundError` (function returns `None`), `some raw` models success
with raw stdout `raw`, of which the function returns `raw.strip()`. -/
def get_tmux_window_name : Option String → Option String
  | some raw => some (pyStrip raw)
  | none => none

/-- `get_session_name` (main.py lines 77-87): override if truthy, else
tmux window name when `session_from_tmux_pane` is enabled and the name is
truthy, else `config.get(default_session_name, "default")`. -/
def get_session_name (config : Config) (override_name : Option String)
    (tmux_state : Option String) : String :=
  if pyTruthy override_name then
    override_name.getD ""
  else if config.session_from_tmux_pane.getD false then
    let tmux_name := get_tmux_window_name tmux_state
    if pyTruthy tmux_name then tmux_name.getD ""
    else config.default_session_name.getD "default"
  else
    config.default_session_name.getD "default"

/-- Session-name resolution in `main` (main.py lines 300-310): when the
`args.tmux` flag is set, use the tmux window name if truthy (else the
configured default), ignoring `args.session`; otherwise call
`get_session_name(config, args.session)`. -/
def main_session_name (config : Config) (args_session : Option String)
    (args_tmux : Bool) (tmux_state : Option String) : String :=
  if args_tmux then
    let tmux_name := get_tmux_window_name tmux_state
    if pyTruthy tmux_name then tmux_name.getD ""
    else config.default_session_name.getD "default"
  else
    get_session_name config args_session tmux_state

/-- `detect_remote_os` (main.py lines 105-125): run one remote command; on
transport failure return `"unknown"`, else lower-case the stripped output
and classify by substring tests in the fixed order of the source. -/
def detect_remote_os (tr : TransportResult) : String :=
  match run_ssh_command tr with
  | (_, false) => "unknown"
  | (output, true) =>
    let output := pyLower output
    if strContains output "ubuntu" then "ubuntu"
    else if strContains output "debian" then "debian"
    else if strContains output "rhel" || strContains output "centos" ||
        strContains output "fedora" || strContains output "red hat" then "redhat"
    else if strContains output "arch" then "arch"
    else if strContains output "alpine" then "alpine"
    else "unknown"

/-- The six OS family tags. -/
def os_tags : List String :=
  ["ubuntu", "debian", "redhat", "arch", "alpine", "unknown"]

/-- The priority order of the spec: ubuntu, debian,
(rhel | centos | fedora | red hat) mapped to redhat, arch, alpine. -/
def os_priority_table : List (List String × String) :=
  [(["ubuntu"], "ubuntu"),
   (["debian"], "debian"),
   (["rhel", "centos", "fedora", "red hat"], "redhat"),
   (["arch"], "arch"),
   (["alpine"], "alpine")]

/-- First-match-wins classification over a priority table, written from
the words of the spec (anything matching no row maps to unknown); used to
compare the source classifier against the spec order. -/
def first_matching_tag : List (List String × String) → String → String
  | [], _ => "unknown"
  | (markers, tag) :: rest, text =>
    if markers.any (fun m => strContains text m) then tag
    else first_matching_tag rest text

/-- Classification as the spec words it: first match in the fixed priority
order over the lower-cased identification text, else unknown. -/
def spec_classify (text : String) : String :=
  first_matching_tag os_priority_table text

/-- One remote command issued over the transport: `tty` records whether a
terminal was allocated (`ssh -t`). -/
structure RemoteInvocation where
  tty : Bool
  cmd : String
deriving DecidableEq

/-- The lookup-and-run stage of `install_dtach` (main.py lines 131-149),
taking the already-detected `os_type` (the spec contract
`install(target, os_tag, command_table)`): look `os_type` up in
`config.get(dtach_install_command, {})`; if absent, report manual install
and return `False` running nothing; if present, run the mapped command once
over `ssh -t` and return whether its exit status is zero. The returned list
collects the remote commands invoked. -/
def install_dtach (os_type : String) (config : Config)
    (remoteExit : String → Int) : Bool × List RemoteInvocation :=
  let install_commands := config.dtach_install_command.getD []
  match install_commands.lookup os_type with
  | some cmd => (decide (remoteExit cmd = 0), [⟨true, cmd⟩])
  | none => (false, [])

/-- The lookup-and-run stage of `install_mosh` (main.py lines 155-173),
mirror of `install_dtach` over `mosh_install_command`. -/
def install_mosh (os_type : String) (config : Config)
    (remoteExit : String → Int) : Bool × List RemoteInvocation :=
  let install_commands := config.mosh_install_command.getD []
  match install_commands.lookup os_type with
  | some cmd => (decide (remoteExit cmd = 0), [⟨true, cmd⟩])
  | none => (false, [])

/-- `install_dtach` as the source composes it (main.py lines 127-149): the
os tag comes from `detect_remote_os` on its own probe transport result. -/
def install_dtach_full (detect_tr : TransportResult) (config : Config)
    (remoteExit : String → Int) : Bool × List RemoteInvocation :=
  install_dtach (detect_remote_os detect_tr) config remoteExit

/-- The session-storage path fragment `~/.persist-ssh/{session_name}` used
as the `dtach -A` socket argument (main.py lines 223 and 252). -/
def session_storage_path (session_name : String) : String :=
  "~/.persist-ssh/" ++ session_name

/-- Text of the connect script (main.py lines 210-258) before the first
`{session_name}` placeholder. -/
def connect_seg1 : String :=
  "\n        # Create session directory\n        mkdir -p ~/.persist-ssh\n        \n        # Detect user\x27s shell (fallback to bash if not found)\n        USER_SHELL=$(getent passwd $USER | cut -d: -f7)\n        if [ -z \"$USER_SHELL\" ] || [ ! -x \"$USER_SHELL\" ]; then\n            USER_SHELL=/bin/bash\n        fi\n        \n        # Check if dtach is available\n        if command -v dtach >/dev/null 2>&1; then\n            echo \"Starting persistent session: "

/-- Text between the first `{session_name}` placeholder and the first
`~/.persist-ssh/{session_name}` path. -/
def connect_seg2 : String :=
  " (Ctrl+T to detach)\"\n            exec dtach -A "

/-- Text between the first path and the second `{session_name}`
placeholder (the whole package-manager fallback chain). -/
def connect_seg3 : String :=
  " -e \"^T\" $USER_SHELL\n        else\n            echo \"dtach not found - attempting to install...\"\n            \n            # Try to install dtach based on available package manager\n            if command -v apt >/dev/null 2>&1; then\n                sudo apt update && sudo apt install -y dtach\n            elif command -v yum >/dev/null 2>&1; then\n                sudo yum install -y dtach\n            elif command -v dnf >/dev/null 2>&1; then\n                sudo dnf install -y dtach\n            elif command -v pacman >/dev/null 2>&1; then\n                sudo pacman -S --noconfirm dtach\n            elif command -v apk >/dev/null 2>&1; then\n                sudo apk add dtach\n            else\n                echo \"Could not detect package manager. Please install dtach manually:\"\n                echo \"  Ubuntu/Debian: sudo apt install dtach\"\n                echo \"  RHEL/CentOS:   sudo yum install dtach\"\n                echo \"  Fedora:        sudo dnf install dtach\"\n                echo \"  Arch:          sudo pacman -S dtach\"\n                echo \"  Alpine:        sudo apk add dtach\"\n                exec $USER_SHELL\n            fi\n            \n            # Check if installation succeeded\n            if command -v dtach >/dev/null 2>&1; then\n                echo \"dtach installed successfully!\"\n                echo \"Starting persistent session: "

/-- Text between the second `{session_name}` placeholder and the second
path. -/
def connect_seg4 : String :=
  " (Ctrl+T to detach)\"\n                exec dtach -A "

/-- Text after the second path, to the end of the script. -/
def connect_seg5 : String :=
  " -e \"^T\" $USER_SHELL\n            else\n                echo \"Failed to install dtach. Starting regular shell.\"\n                exec $USER_SHELL\n            fi\n        fi\n    "

/-- `single_command` (main.py lines 210-258): the f-string of the connect
script with the two `{session_name}` substitutions and the two
`~/.persist-ssh/{session_name}` socket paths spliced in. -/
def single_command (session_name : String) : String :=
  connect_seg1 ++ (session_name ++ (connect_seg2 ++
    (session_storage_path session_name ++ (connect_seg3 ++
      (session_name ++ (connect_seg4 ++
        (session_storage_path session_name ++ connect_seg5)))))))

/-- How the blocking `subprocess.run(ssh -t host single_command)` call in
`connect_to_session` ends: normal termination with the ssh exit status, a
local `KeyboardInterrupt`, or another exception with a message. -/
inductive ConnectOutcome where
  | normal (ssh_exit : Int)
  | keyboardInterrupt
  | error (msg : String)

/-- Observable result of `connect_to_session`: the remote commands issued,
the lines printed locally, and whether an exception escapes to the caller. -/
structure ConnectResult where
  invocations : List RemoteInvocation
  printed : List String
  raised : Bool

/-- `connect_to_session` (main.py lines 199-271): print the debug lines if
requested, issue the one `ssh -t` invocation carrying `single_command`,
and absorb both `KeyboardInterrupt` (printing a disconnect message) and
any other exception (printing the error); nothing is re-raised and no
further remote command is issued in either handler. -/
def connect_to_session (host session_name : String) (debug : Bool)
    (outcome : ConnectOutcome) : ConnectResult :=
  let debug_lines :=
    if debug then
      ["Connecting to " ++ host ++ ", session: " ++ session_name,
       "Running single SSH command with Ctrl+T detach",
       "Command: " ++ pyStrip (single_command session_name)]
    else []
  let invocations := [RemoteInvocation.mk true (single_command session_name)]
  match outcome with
  | .normal _ => ⟨invocations, debug_lines, false⟩
  | .keyboardInterrupt =>
      ⟨invocations, debug_lines ++ ["\nDisconnected."], false⟩
  | .error msg =>
      ⟨invocations, debug_lines ++ ["Error connecting: " ++ msg], false⟩

/-- The exit code of `main` (main.py lines 273-319) on its two paths after
argument parsing: the `--list` path returns early, the connect path calls
`connect_to_session` and falls off the end of `main`. A Python process
exits non-zero here only if an exception escapes `main`; `main` never
inspects the ssh exit status and never calls `sys.exit`. -/
def main_run (config : Config) (host : String) (args_session : Option String)
    (args_list args_debug args_tmux : Bool) (tmux_state : Option String)
    (outcome : ConnectOutcome) : Int :=
  if args_list then 0
  else
    let session_name := main_session_name config args_session args_tmux tmux_state
    let r := connect_to_session host session_name args_debug outcome
    if r.raised then 1 else 0

/-- A string is filesystem-path-safe when it contains no path separator. -/
def path_safe (s : String) : Bool :=
  !(s.data.contains '/')

/-- Modelled from the spec: sentinel marker for helper presence emitted by
the probe command of spec section 4.2 (the marker text itself is not fixed
by the spec). -/
def HELPER_PRESENT_MARKER : String := "PERSIST_SSH_HELPER_OK"

/-- Modelled from the spec: sentinel marker for completion of the
session-directory step of the probe command of spec section 4.2. -/
def DIR_READY_MARKER : String := "PERSIST_SSH_DIR_OK"

/-- Modelled from the spec: the single non-interactive remote command of
the Remote Environment Prober (spec section 4.2), which is absent from
`src/persist_ssh/main.py` (this revision inlines the helper check in the
connect script): it idempotently creates the session-storage directory,
tests for the helper binary on the remote PATH, and emits the two sentinel
markers. -/
def probe_command : String :=
  "mkdir -p ~/.persist-ssh && echo " ++ DIR_READY_MARKER ++
    "; command -v dtach >/dev/null 2>&1 && echo " ++ HELPER_PRESENT_MARKER

/-- Modelled from the spec: `probe(target) -> (helper_present, raw_output,
ok)` of spec section 4.2, absent from `src/persist_ssh/main.py`; built on
the transport embedding `run_ssh_command`: on transport success parse the
helper-presence marker out of the combined output with `ok = true`; on
transport failure report `ok = false` with `helper_present = false`. -/
def probe (tr : TransportResult) : Bool × String × Bool :=
  match run_ssh_command tr with
  | (output, true) => (strContains output HELPER_PRESENT_MARKER, output, true)
  | (output, false) => (false, output, false)

/-- Modelled from the spec: the probe issues exactly one remote command,
non-interactively (no terminal allocation). -/
def probe_invocations : List RemoteInvocation :=
  [⟨false, probe_command⟩]

end PersistSSH

/-- Helper: left-cancellation of string concatenation. -/
theorem string_append_cancel_left (p s t : String) (h : p ++ s = p ++ t) :
    s = t := by
  have hd : p.data ++ s.data = p.data ++ t.data := by
    have h2 := congrArg String.data h
    simpa using h2
  have hst : s.data = t.data := List.append_cancel_left hd
  cases s
  cases t
  simp_all

/-- C1: The claim says a non-empty explicit override is used verbatim even
when tmux-derivation is forced. Counterexample: with `--tmux` set (forced),
override `"dev"` and tmux window `"work"`, `main` resolves `"work"`, not
`"dev"` (main.py lines 301-308 never consult `args.session`). -/
theorem c1_counterexample :
    PersistSSH.main_session_name PersistSSH.Config.empty (some "dev") true
      (some "work") = "work" ∧
    ("work" : String) ≠ "dev" := by
  constructor
  · decide
  · decide

/-- C1 (amended): for every non-empty explicit override, whenever the
`--tmux` force flag is NOT set, the resolved session identifier equals the
override verbatim, regardless of configuration contents (including
config-enabled tmux derivation) and of any local multiplexer state. -/
theorem c1_override_verbatim (config : PersistSSH.Config) (o : String)
    (tmux_state : Option String) (h : o ≠ "") :
    PersistSSH.main_session_name config (some o) false tmux_state = o := by
  have ht : PersistSSH.pyTruthy (some o) = true := by
    simp [PersistSSH.pyTruthy, h]
  simp [PersistSSH.main_session_name, PersistSSH.get_session_name, ht]

/-- C1 witness: the amended theorem at a concrete input. -/
theorem c1_override_verbatim_witness :
    PersistSSH.main_session_name PersistSSH.DEFAULT_CONFIG (some "dev") false
      (some "work") = "dev" :=
  c1_override_verbatim PersistSSH.DEFAULT_CONFIG "dev" (some "work")
    (by decide)

/-- C2: The claim says the defaults are `session_from_tmux_pane = true` and
default session name `"main"`. Counterexample: with an empty configuration,
no override and no tmux state, the resolver yields `"default"`, not
`"main"` (main.py line 87 reads `config.get(default_session_name,
"default")`, line 82 reads `config.get(session_from_tmux_pane, False)`). -/
theorem c2_counterexample :
    PersistSSH.get_session_name PersistSSH.Config.empty none none = "default" ∧
    PersistSSH.get_session_name PersistSSH.Config.empty none none ≠ "main" := by
  constructor
  · decide
  · decide

/-- C2 (amended): absent keys fall back to `session_from_tmux_pane = false`
and default session name `"default"`: with no override, no
`session_from_tmux_pane` key (so derivation is disabled) and no
`default_session_name` key, the resolved identifier is `"default"` for
every multiplexer state. -/
theorem c2_defaults (config : PersistSSH.Config) (tmux_state : Option String)
    (h1 : config.session_from_tmux_pane = none)
    (h2 : config.default_session_name = none) :
    PersistSSH.get_session_name config none tmux_state = "default" := by
  simp [PersistSSH.get_session_name, PersistSSH.pyTruthy, h1, h2]

/-- C2 witness: the amended theorem at a concrete input. -/
theorem c2_defaults_witness :
    PersistSSH.get_session_name PersistSSH.Config.empty none (some "work") =
      "default" :=
  c2_defaults PersistSSH.Config.empty (some "work") rfl rfl

/-- C3: remote-OS classification is a total deterministic function into the
six tags, and on every successful transport it equals the first-match-wins
classifier over the lower-cased (stripped) identification text in the fixed
priority order ubuntu, debian, (rhel | centos | fedora | red hat) to
redhat, arch, alpine, else unknown — so when several family substrings are
present the highest-priority one wins. -/
theorem c3_detect_remote_os_classification :
    (∀ tr, PersistSSH.detect_remote_os tr ∈ PersistSSH.os_tags) ∧
    (∀ s, PersistSSH.detect_remote_os (PersistSSH.TransportResult.ok s) =
      PersistSSH.spec_classify (PersistSSH.pyLower (PersistSSH.pyStrip s))) := by
  constructor
  · intro tr
    cases tr with
    | ok s =>
      simp only [PersistSSH.detect_remote_os, PersistSSH.run_ssh_command,
        PersistSSH.os_tags]
      split_ifs <;> simp
    | err e =>
      simp [PersistSSH.detect_remote_os, PersistSSH.run_ssh_command,
        PersistSSH.os_tags]
  · intro s
    simp only [PersistSSH.detect_remote_os, PersistSSH.run_ssh_command,
      PersistSSH.spec_classify, PersistSSH.os_priority_table,
      PersistSSH.first_matching_tag, List.any_cons, List.any_nil,
      Bool.or_false, Bool.or_assoc]

/-- C4: The claim says the exit code is non-zero when a bootstrap install
was required and failed. Counterexample: even when the ssh process carrying
the connect script (whose remote bootstrap chain has failed) reports exit
status 1, `main` ignores the status and the process exits 0: `main` never
calls `sys.exit`, never reads `subprocess.run(ssh_cmd).returncode`
(main.py line 267), and `install_dtach`/`install_mosh` are never invoked
from `main` at all. -/
theorem c4_counterexample :
    PersistSSH.main_run PersistSSH.DEFAULT_CONFIG "myserver" none false false
      false none (PersistSSH.ConnectOutcome.normal 1) = 0 := by
  rfl

/-- C4 (amended): the process exit code is zero in every modeled outcome of
every invocation — listing, normal detach, keyboard interrupt, connect
error, and any ssh exit status including a failed remote bootstrap install;
no failure of the bootstrap chain ever surfaces as a non-zero exit. -/
theorem c4_exit_code_always_zero (config : PersistSSH.Config) (host : String)
    (args_session : Option String) (args_list args_debug args_tmux : Bool)
    (tmux_state : Option String) (outcome : PersistSSH.ConnectOutcome) :
    PersistSSH.main_run config host args_session args_list args_debug
      args_tmux tmux_state outcome = 0 := by
  cases outcome <;>
    simp [PersistSSH.main_run, PersistSSH.connect_to_session]

/-- C5 (modelled from the spec, see `PersistSSH.probe`): the probe returns
`(helper_present, raw_output, ok)` with: transport success and both
sentinel markers present implies `helper_present = true` and `ok = true`;
transport success without the helper-presence marker implies
`helper_present = false` and `ok = true`; transport failure implies
`ok = false` (with `helper_present = false`, a path distinct from
helper-missing); and it issues exactly one non-interactive remote
command. -/
theorem c5_probe_round_trip (s e : String) :
    (PersistSSH.strContains (PersistSSH.pyStrip s)
        PersistSSH.HELPER_PRESENT_MARKER = true ∧
      PersistSSH.strContains (PersistSSH.pyStrip s)
        PersistSSH.DIR_READY_MARKER = true →
      (PersistSSH.probe (PersistSSH.TransportResult.ok s)).1 = true ∧
      (PersistSSH.probe (PersistSSH.TransportResult.ok s)).2.2 = true) ∧
    (PersistSSH.strContains (PersistSSH.pyStrip s)
        PersistSSH.HELPER_PRESENT_MARKER = false →
      (PersistSSH.probe (PersistSSH.TransportResult.ok s)).1 = false ∧
      (PersistSSH.probe (PersistSSH.TransportResult.ok s)).2.2 = true) ∧
    ((PersistSSH.probe (PersistSSH.TransportResult.err e)).2.2 = false ∧
      (PersistSSH.probe (PersistSSH.TransportResult.err e)).1 = false) ∧
    PersistSSH.probe_invocations.length = 1 ∧
    (PersistSSH.probe_invocations.all fun i => !i.tty) = true := by
  refine ⟨?_, ?_, ?_, ?_, ?_⟩
  · intro h
    simp [PersistSSH.probe, PersistSSH.run_ssh_command, h.1]
  · intro h
    simp [PersistSSH.probe, PersistSSH.run_ssh_command, h]
  · simp [PersistSSH.probe, PersistSSH.run_ssh_command]
  · rfl
  · rfl

/-- C5 witness: the probe cases at concrete transport outcomes. -/
theorem c5_probe_round_trip_witness :
    ((PersistSSH.probe (PersistSSH.TransportResult.ok
        "PERSIST_SSH_DIR_OK\nPERSIST_SSH_HELPER_OK")).1 = true ∧
      (PersistSSH.probe (PersistSSH.TransportResult.ok
        "PERSIST_SSH_DIR_OK\nPERSIST_SSH_HELPER_OK")).2.2 = true) ∧
    ((PersistSSH.probe (PersistSSH.TransportResult.ok
        "sh: dtach: not found")).1 = false ∧
      (PersistSSH.probe (PersistSSH.TransportResult.ok
        "sh: dtach: not found")).2.2 = true) ∧
    ((PersistSSH.probe (PersistSSH.TransportResult.err
        "ssh: connect to host myserver port 22: Connection refused")).2.2 =
       false) :=
  ⟨(c5_probe_round_trip "PERSIST_SSH_DIR_OK\nPERSIST_SSH_HELPER_OK" "x").1
      (by decide),
   (c5_probe_round_trip "sh: dtach: not found" "x").2.1 (by decide),
   (c5_probe_round_trip "x"
      "ssh: connect to host myserver port 22: Connection refused").2.2.1.1⟩

/-- C6: if `os_tag` is absent from the install-command table the installer
returns failure without invoking any remote command (in particular
`"unknown"` is absent from both default tables); if present, it runs the
mapped command exactly once over an interactive terminal (`ssh -t`) and
returns true iff the remote exit status is zero, with no retry. Stated for
`install_dtach` and its mirror `install_mosh`. -/
theorem c6_install_lookup (os_type : String) (config : PersistSSH.Config)
    (remoteExit : String → Int) :
    ((config.dtach_install_command.getD []).lookup os_type = none →
      PersistSSH.install_dtach os_type config remoteExit = (false, [])) ∧
    (∀ cmd, (config.dtach_install_command.getD []).lookup os_type = some cmd →
      PersistSSH.install_dtach os_type config remoteExit =
        (decide (remoteExit cmd = 0), [⟨true, cmd⟩])) ∧
    ((config.mosh_install_command.getD []).lookup os_type = none →
      PersistSSH.install_mosh os_type config remoteExit = (false, [])) ∧
    (∀ cmd, (config.mosh_install_command.getD []).lookup os_type = some cmd →
      PersistSSH.install_mosh os_type config remoteExit =
        (decide (remoteExit cmd = 0), [⟨true, cmd⟩])) ∧
    ((PersistSSH.DEFAULT_CONFIG.dtach_install_command.getD []).lookup
        "unknown" = none ∧
      (PersistSSH.DEFAULT_CONFIG.mosh_install_command.getD []).lookup
        "unknown" = none) := by
  refine ⟨?_, ?_, ?_, ?_, ?_⟩
  · intro h
    simp [PersistSSH.install_dtach, h]
  · intro cmd h
    simp [PersistSSH.install_dtach, h]
  · intro h
    simp [PersistSSH.install_mosh, h]
  · intro cmd h
    simp [PersistSSH.install_mosh, h]
  · constructor
    · decide
    · decide

/-- C6 witness: unknown OS runs nothing and fails; a mapped OS runs its
command once and succeeds iff the remote exit status is zero. -/
theorem c6_install_lookup_witness :
    PersistSSH.install_dtach "unknown" PersistSSH.DEFAULT_CONFIG
      (fun _ => 0) = (false, []) ∧
    PersistSSH.install_dtach "arch" PersistSSH.DEFAULT_CONFIG (fun _ => 0) =
      (true, [⟨true, "sudo pacman -S dtach"⟩]) ∧
    PersistSSH.install_dtach "arch" PersistSSH.DEFAULT_CONFIG (fun _ => 1) =
      (false, [⟨true, "sudo pacman -S dtach"⟩]) := by
  refine ⟨?_, ?_, ?_⟩
  · exact (c6_install_lookup "unknown" PersistSSH.DEFAULT_CONFIG
      (fun _ => 0)).1 (by decide)
  · have h := (c6_install_lookup "arch" PersistSSH.DEFAULT_CONFIG
      (fun _ => 0)).2.1 "sudo pacman -S dtach" (by decide)
    simpa using h
  · have h := (c6_install_lookup "arch" PersistSSH.DEFAULT_CONFIG
      (fun _ => 1)).2.1 "sudo pacman -S dtach" (by decide)
    simpa using h

/-- C7: the connect command references the session-storage path
`~/.persist-ssh/{session_id}`; the construction is a pure function of the
session identifier (so two connects with the same `(target, session_id)`
reference the identical path), and distinct identifiers yield distinct
storage paths (injectivity). -/
theorem c7_session_path (s₁ s₂ : String) (hne : s₁ ≠ s₂) :
    (∀ s, ∃ a b : String,
      PersistSSH.single_command s =
        a ++ (PersistSSH.session_storage_path s ++ b)) ∧
    (∀ s, PersistSSH.session_storage_path s = "~/.persist-ssh/" ++ s) ∧
    PersistSSH.session_storage_path s₁ ≠ PersistSSH.session_storage_path s₂ := by
  refine ⟨?_, fun s => rfl, ?_⟩
  · intro s
    refine ⟨PersistSSH.connect_seg1 ++ (s ++ PersistSSH.connect_seg2),
      PersistSSH.connect_seg3 ++ (s ++ (PersistSSH.connect_seg4 ++
        (PersistSSH.session_storage_path s ++ PersistSSH.connect_seg5))), ?_⟩
    simp [PersistSSH.single_command, String.append_assoc]
  · intro h
    exact hne (string_append_cancel_left "~/.persist-ssh/" s₁ s₂ h)

/-- C7 witness: distinct identifiers at a concrete input. -/
theorem c7_session_path_witness :
    PersistSSH.session_storage_path "dev" ≠
      PersistSSH.session_storage_path "work" :=
  (c7_session_path "dev" "work" (by decide)).2.2

/-- C8: a keyboard interrupt during the blocking connect call is caught:
no exception escapes `connect_to_session`, the friendly message
`Disconnected.` is printed, the only remote command ever issued is the
single attach command (nothing killing the remote session is sent), and
`main` finishes with exit code zero. -/
theorem c8_keyboard_interrupt (config : PersistSSH.Config)
    (host s : String) (debug args_tmux : Bool) (args_session : Option String)
    (tmux_state : Option String) :
    (PersistSSH.connect_to_session host s debug
        PersistSSH.ConnectOutcome.keyboardInterrupt).raised = false ∧
    "\nDisconnected." ∈ (PersistSSH.connect_to_session host s debug
        PersistSSH.ConnectOutcome.keyboardInterrupt).printed ∧
    (PersistSSH.connect_to_session host s debug
        PersistSSH.ConnectOutcome.keyboardInterrupt).invocations =
      [⟨true, PersistSSH.single_command s⟩] ∧
    PersistSSH.main_run config host args_session false debug args_tmux
      tmux_state PersistSSH.ConnectOutcome.keyboardInterrupt = 0 := by
  refine ⟨rfl, ?_, rfl, ?_⟩
  · simp [PersistSSH.connect_to_session]
  · simp [PersistSSH.main_run, PersistSSH.connect_to_session]

/-- C9: The claim says every identifier passed to the connector is
path-safe. Counterexample: the override `"../evil/name"` is resolved
verbatim and contains path separators — no sanitization exists anywhere on
the resolution path (main.py lines 77-87, 300-310). -/
theorem c9_counterexample :
    PersistSSH.main_session_name PersistSSH.DEFAULT_CONFIG
      (some "../evil/name") false none = "../evil/name" ∧
    PersistSSH.path_safe "../evil/name" = false := by
  constructor
  · decide
  · decide

/-- C9 (amended): the resolver introduces no characters of its own — the
identifier handed to the connector is always the override, the stripped
tmux window name, or the configured default, verbatim — so it is
path-separator-free exactly when that source is; no path-safety check is
performed. -/
theorem c9_path_safety (config : PersistSSH.Config) (o : Option String)
    (args_tmux : Bool) (tmux_state : Option String) :
    (PersistSSH.main_session_name config o args_tmux tmux_state = o.getD "" ∨
     PersistSSH.main_session_name config o args_tmux tmux_state =
       (PersistSSH.get_tmux_window_name tmux_state).getD "" ∨
     PersistSSH.main_session_name config o args_tmux tmux_state =
       config.default_session_name.getD "default") ∧
    (PersistSSH.path_safe (o.getD "") = true →
     PersistSSH.path_safe
       ((PersistSSH.get_tmux_window_name tmux_state).getD "") = true →
     PersistSSH.path_safe (config.default_session_name.getD "default") = true →
     PersistSSH.path_safe
       (PersistSSH.main_session_name config o args_tmux tmux_state) = true) := by
  have H : PersistSSH.main_session_name config o args_tmux tmux_state =
        o.getD "" ∨
      PersistSSH.main_session_name config o args_tmux tmux_state =
        (PersistSSH.get_tmux_window_name tmux_state).getD "" ∨
      PersistSSH.main_session_name config o args_tmux tmux_state =
        config.default_session_name.getD "default" := by
    by_cases hf : args_tmux = true <;>
    by_cases h1 : PersistSSH.pyTruthy (PersistSSH.get_tmux_window_name
      tmux_state) = true <;>
    by_cases h2 : PersistSSH.pyTruthy o = true <;>
    by_cases h3 : config.session_from_tmux_pane.getD false = true <;>
    simp [PersistSSH.main_session_name, PersistSSH.get_session_name,
      hf, h1, h2, h3]
  refine ⟨H, ?_⟩
  intro h1 h2 h3
  rcases H with h | h | h <;> rw [h] <;> assumption

/-- C9 witness: with separator-free sources the resolved identifier is
path-safe. -/
theorem c9_path_safety_witness :
    PersistSSH.path_safe
      (PersistSSH.main_session_name PersistSSH.DEFAULT_CONFIG (some "dev")
        false (some "work")) = true :=
  (c9_path_safety PersistSSH.DEFAULT_CONFIG (some "dev") false
    (some "work")).2 (by decide) (by decide) (by decide)

/-- C10: a tmux query that succeeds with a window name that is empty after
stripping is treated exactly like tmux being unavailable, and (whatever the
configuration) the resolver then falls through to the configured default
rather than using the empty string. -/
theorem c10_empty_tmux_name (config : PersistSSH.Config) (raw : String)
    (h : PersistSSH.pyStrip raw = "") :
    PersistSSH.get_session_name config none (some raw) =
      PersistSSH.get_session_name config none none ∧
    (config.session_from_tmux_pane.getD false = true →
      PersistSSH.get_session_name config none (some raw) =
        config.default_session_name.getD "default") := by
  constructor
  · simp [PersistSSH.get_session_name, PersistSSH.get_tmux_window_name,
      PersistSSH.pyTruthy, h]
  · intro he
    simp [PersistSSH.get_session_name, PersistSSH.get_tmux_window_name,
      PersistSSH.pyTruthy, h, he]

/-- C10 witness: whitespace-only tmux output with derivation enabled
resolves to the configured default. -/
theorem c10_empty_tmux_name_witness :
    PersistSSH.get_session_name
      { session_from_tmux_pane := some true,
        default_session_name := some "base" } none (some "  \n") = "base" :=
  (c10_empty_tmux_name
    { session_from_tmux_pane := some true, default_session_name := some "base" }
    "  \n" (by decide)).2 (by decide)
